import Mathlib

/-!
Verification of the `odoo_module` package of the TECHNO-ETL repository.

The repository consists of two Python source files:
  * `src/odoo_module/__manifest__.py` — a static module descriptor (a Python
    dict literal of strings, booleans, lists and a nested dict);
  * `src/odoo_module/controllers/main.py` — a controller class
    `MagentoCegidDashboard` with a single route handler `index`, declared by
    the decorator `@http.route('/magento_cegid_dashboard', auth='public',
    website=True)`, whose body is the single statement
    `return http.request.render('magento_cegid_dashboard.index', {})`.

The embedding below translates the manifest literal value by value, and the
handler as a function parameterised over the host's template renderer (an
arbitrary function from a template identifier and a context to a response).
Since the handler body is a single pass-through call, its state-passing and
fallible forms are derived by instantiating the response type.
-/

/-- Values occurring in the Python module descriptor literal: strings,
booleans, lists, and string-keyed dictionaries. -/
inductive PyVal where
  | str (s : String)
  | bool (b : Bool)
  | list (xs : List PyVal)
  | dict (kvs : List (String × PyVal))

/-- Whether a descriptor value is a boolean flag. -/
def PyVal.isBool : PyVal → Bool
  | .bool _ => true
  | _ => false

/-- Whether a descriptor value is a non-empty string. -/
def PyVal.isNonEmptyStr : PyVal → Bool
  | .str s => !s.isEmpty
  | _ => false

/-- Whether a descriptor value is a list all of whose elements are non-empty
strings (the shape required of a list of file paths). -/
def PyVal.isNonEmptyStrList : PyVal → Bool
  | .list xs => xs.all PyVal.isNonEmptyStr
  | _ => false

/-- Extract a list of strings from a descriptor value, when it has that shape. -/
def PyVal.asStrList : PyVal → Option (List String)
  | .list xs => xs.mapM (fun v => match v with
      | .str s => some s
      | _ => none)
  | _ => none

/-- The module descriptor, translated entry by entry from
`src/odoo_module/__manifest__.py`. -/
def manifest : List (String × PyVal) :=
  [ ("name", .str "Magento Cegid Dashboard"),
    ("version", .str "1.0"),
    ("summary", .str "Dashboard for Magento and Cegid integration"),
    ("description", .str "This module integrates Magento and Cegid into Odoo, providing a dashboard for managing data."),
    ("category", .str "Tools"),
    ("author", .str "Mounir Abderrahmani"),
    ("website", .str "https://technostationary.com"),
    ("depends", .list [.str "base", .str "web"]),
    ("data", .list [.str "views/magento_cegid_dashboard_views.xml",
                    .str "views/magento_cegid_dashboard_menu.xml"]),
    ("assets", .dict [("web.assets_backend",
        .list [.str "/odoo_module/static/src/js/dsist_integration.js"])]),
    ("qweb", .list []),
    ("installable", .bool true),
    ("application", .bool true),
    ("auto_install", .bool false) ]

/-- The descriptor keys the specification lists as required: name, version,
summary, description, category, author, website, the dependency list, the
view/menu file paths, and the three installation flags. -/
def requiredKeys : List String :=
  ["name", "version", "summary", "description", "category", "author",
   "website", "depends", "data", "installable", "application", "auto_install"]

/-- The three boolean flag keys of the descriptor. -/
def flagKeys : List String := ["installable", "application", "auto_install"]

/-- The keys of the descriptor whose values are boolean flags, in declaration
order. -/
def boolFlagKeys : List String :=
  (manifest.filter (fun kv => PyVal.isBool kv.2)).map Prod.fst

/-- The `data` entry of the descriptor is a list of non-empty path strings. -/
def dataPathsOk : Bool :=
  match manifest.lookup "data" with
  | some v => PyVal.isNonEmptyStrList v
  | none => false

/-- Every asset bundle of the `assets` entry maps to a list of non-empty path
strings. -/
def assetPathsOk : Bool :=
  match manifest.lookup "assets" with
  | some (.dict kvs) => kvs.all (fun kv => PyVal.isNonEmptyStrList kv.2)
  | _ => false

/-- Every flag key holds a boolean value in the descriptor. -/
def flagsOk : Bool :=
  flagKeys.all (fun k =>
    match manifest.lookup k with
    | some v => PyVal.isBool v
    | none => false)

/-- A route declaration, carrying the arguments of the `@http.route`
decorator: the URL path, the `auth` mode and the `website` flag. -/
structure Route where
  path : String
  auth : String
  website : Bool

/-- The routes declared by the repository: `controllers/main.py` declares
exactly one, `@http.route('/magento_cegid_dashboard', auth='public',
website=True)`. -/
def routes : List Route :=
  [⟨"/magento_cegid_dashboard", "public", true⟩]

/-- The fixed URL path of the single declared route. -/
def routePath : String := "/magento_cegid_dashboard"

/-- An inbound HTTP request as the handler sees it: the URL path and the
query parameters (which the dispatcher passes to the handler as `**kw`). -/
structure Request where
  path : String
  query : List (String × String)

namespace MagentoCegidDashboard

/-- The route handler `MagentoCegidDashboard.index`, parameterised over the
host renderer `render` (Odoo's `http.request.render`). Its body is the single
statement `return http.request.render('magento_cegid_dashboard.index', {})`;
the keyword parameters `kw` do not occur in it. -/
def index {R : Type} (render : String → List (String × PyVal) → R)
    (kw : List (String × String)) : R :=
  render "magento_cegid_dashboard.index" []

/-- State-passing form of `index` over an arbitrary state type `S`: the Python
body contains no read or write of any module state, so it returns the render
result together with the state it was given. -/
def indexST {S R : Type} (render : String → List (String × PyVal) → R)
    (kw : List (String × String)) (s : S) : R × S :=
  (index render kw, s)

end MagentoCegidDashboard

/-- The host's dispatch step restricted to this module's route table: a
request whose path equals the declared route path is answered by the handler;
any other request is not handled by this module. -/
def dispatch {R : Type} (render : String → List (String × PyVal) → R)
    (req : Request) : Option R :=
  if req.path = routePath then some (MagentoCegidDashboard.index render req.query) else none

/-- A sequence of `n` consecutive invocations of the handler in state-passing
form, collecting the outputs and threading the state. -/
def runCalls {S R : Type} (render : String → List (String × PyVal) → R)
    (kw : List (String × String)) : Nat → S → List R × S
  | 0, s => ([], s)
  | n + 1, s =>
      let p := MagentoCegidDashboard.indexST render kw s
      let q := runCalls render kw n p.2
      (p.1 :: q.1, q.2)

/-- Claim C1: for every inbound request whose path is the fixed route path
`/magento_cegid_dashboard`, the handler `index` returns exactly the host
renderer applied to the fixed template identifier
`magento_cegid_dashboard.index` and the empty context, and nothing else. -/
theorem c1_index_renders_fixed_template {R : Type}
    (render : String → List (String × PyVal) → R) (req : Request)
    (h : req.path = routePath) :
    dispatch render req = some (render "magento_cegid_dashboard.index" []) := by
  simp [dispatch, h, MagentoCegidDashboard.index]

/-- Witness for C1 at the concrete request with path
`/magento_cegid_dashboard` and no query parameters, with a renderer that
returns the template identifier it was given. -/
theorem c1_witness :
    Request.path ⟨"/magento_cegid_dashboard", []⟩ = routePath ∧
    dispatch (fun t _ => t) ⟨"/magento_cegid_dashboard", []⟩ =
      some "magento_cegid_dashboard.index" :=
  ⟨rfl, c1_index_renders_fixed_template (fun t _ => t) ⟨"/magento_cegid_dashboard", []⟩ rfl⟩

/-- Claim C2: two requests that differ only in their query parameters are
dispatched to identical output: the handler's result does not depend on the
keyword parameters it accepts. -/
theorem c2_query_params_ignored {R : Type}
    (render : String → List (String × PyVal) → R) (req1 req2 : Request)
    (h : req1.path = req2.path) :
    dispatch render req1 = dispatch render req2 := by
  simp [dispatch, h, MagentoCegidDashboard.index]

/-- Witness for C2 at two concrete requests to the route path, one without
query parameters and one with an extraneous parameter. -/
theorem c2_witness :
    Request.path ⟨"/magento_cegid_dashboard", []⟩ =
      Request.path ⟨"/magento_cegid_dashboard", [("utm_source", "mail")]⟩ ∧
    dispatch (fun t _ => t) ⟨"/magento_cegid_dashboard", []⟩ =
      dispatch (fun t _ => t) ⟨"/magento_cegid_dashboard", [("utm_source", "mail")]⟩ :=
  ⟨rfl, c2_query_params_ignored (fun t _ => t) ⟨"/magento_cegid_dashboard", []⟩
    ⟨"/magento_cegid_dashboard", [("utm_source", "mail")]⟩ rfl⟩

/-- Claim C3: the handler performs no error handling of its own: at a
fallible renderer it fails exactly when the renderer's single call fails, and
the renderer's error is passed through unmodified, with no recovery or custom
error introduced. -/
theorem c3_errors_pass_through {E R : Type}
    (render : String → List (String × PyVal) → Except E R)
    (kw : List (String × String)) (e : E) :
    MagentoCegidDashboard.index render kw = Except.error e ↔
      render "magento_cegid_dashboard.index" [] = Except.error e :=
  Iff.rfl

/-- Claim C4: every sequence of invocations of the handler leaves the module
state unchanged, and every call's output is the same render result,
independent of the state and of prior invocations. -/
theorem c4_handler_stateless {S R : Type}
    (render : String → List (String × PyVal) → R)
    (kw : List (String × String)) (n : Nat) (s : S) :
    runCalls render kw n s =
      (List.replicate n (render "magento_cegid_dashboard.index" []), s) := by
  induction n generalizing s with
  | zero => rfl
  | succ n ih =>
      simp [runCalls, MagentoCegidDashboard.indexST, MagentoCegidDashboard.index,
        ih, List.replicate]

/-- Claim C5: repeated invocations of the handler on the same input, under
the same renderer (unchanged template registry), yield identical output: the
second call, run from the state the first call left, returns the same value
as the first. -/
theorem c5_repeat_same_output {S R : Type}
    (render : String → List (String × PyVal) → R)
    (kw : List (String × String)) (s : S) :
    (MagentoCegidDashboard.indexST render kw
        (MagentoCegidDashboard.indexST render kw s).2).1 =
      (MagentoCegidDashboard.indexST render kw s).1 :=
  rfl

/-- Claim C6: the repository's HTTP surface is exactly one route, at the
fixed path `/magento_cegid_dashboard`, declared with public access
(`auth='public'`, no authentication requirement), whose handler returns the
rendered template output. -/
theorem c6_http_surface :
    routes = [⟨"/magento_cegid_dashboard", "public", true⟩] ∧
    routes.length = 1 ∧
    (∀ (R : Type) (render : String → List (String × PyVal) → R)
        (kw : List (String × String)),
      MagentoCegidDashboard.index render kw =
        render "magento_cegid_dashboard.index" []) :=
  ⟨rfl, rfl, fun _ _ _ => rfl⟩

/-- Claim C7: the module descriptor is well-formed: every required key is
present, the listed view/menu and asset file paths are non-empty strings, and
every flag value is a boolean. -/
theorem c7_manifest_well_formed :
    (requiredKeys.all (fun k => (manifest.lookup k).isSome)) = true ∧
    dataPathsOk = true ∧ assetPathsOk = true ∧ flagsOk = true :=
  ⟨rfl, rfl, rfl, rfl⟩

/-- Claim C8 counterexample: the descriptor declares three boolean
installation flags — installable, application and auto_install — so the
claim that it declares exactly two is false. -/
theorem c8_counterexample :
    boolFlagKeys = ["installable", "application", "auto_install"] ∧
    boolFlagKeys.length ≠ 2 :=
  ⟨rfl, by decide⟩

/-- Claim C8 (amended): the module descriptor declares exactly three
installation flags, in order installable, application, auto_install. -/
theorem c8_amended_three_flags :
    boolFlagKeys = ["installable", "application", "auto_install"] :=
  rfl

/-- Claim C9: the descriptor's dependency list is exactly `base` then `web`,
in that order, and nothing else. -/
theorem c9_depends_base_web :
    (manifest.lookup "depends").bind PyVal.asStrList = some ["base", "web"] :=
  rfl

/-- Claim C10: the single route is declared with `website=True`, registering
the handler on the host's website rendering layer, in addition to
`auth='public'`. -/
theorem c10_route_website_public :
    routes.map Route.website = [true] ∧ routes.map Route.auth = ["public"] :=
  ⟨rfl, rfl⟩
